import Mathlib

/-!
Verification of the milvusmanager semantic result cache
(`cache_manager.py`, `vector_store.py`, `manage_cache.py`, `milvus_client.py`).

The Python code is shallowly embedded:
* Python runtime values that flow through the normalizer are modelled by `PyVal`
  (dicts are association lists in insertion order, as in CPython).
* The external Milvus collection is modelled as a list of `Row`s following the
  schema declared in `milvus_client.py`; `collection.search` with the `L2`
  metric returns hits ordered by ascending squared-L2 distance (Milvus's `L2`
  metric reports squared distances), restricted to rows matching the filter
  expression.
* Fallible Python code is embedded in `Except`; a `try/except` block that
  returns a sentinel becomes a `match` on the `Except` value.
* `float(...)`/`int(...)` conversion of numeric *strings* is not modelled
  (conservatively an error); no theorem below depends on it.  Container and
  float `str(...)` renderings are modelled by a total function that is not
  byte-identical to CPython's `repr`; no theorem below inspects those strings.
* Timestamps are opaque strings: `datetime.now()` becomes an explicit `now`
  parameter and `datetime.fromisoformat` the identity (its parse errors would
  only collapse into the surrounding `except` branches).
-/

/-- A Python runtime value, as far as the cache code inspects one. -/
inductive PyVal where
  | none
  | bool (b : Bool)
  | int (n : Int)
  | float (q : ℚ)
  | str (s : String)
  | tuple (xs : List PyVal)
  | list (xs : List PyVal)
  | dict (kvs : List (String × PyVal))
deriving Repr

mutual

/-- Python `repr`, approximately: used only where the source calls `str(...)`
on a container; theorems never inspect those strings. -/
def pyRepr : PyVal → String
  | .none => "None"
  | .bool true => "True"
  | .bool false => "False"
  | .int n => toString n
  | .float q => toString q
  | .str s => "'" ++ s ++ "'"
  | .tuple xs => "(" ++ pyReprList xs ++ ")"
  | .list xs => "[" ++ pyReprList xs ++ "]"
  | .dict kvs => "\x7b" ++ pyReprKVs kvs ++ "\x7d"

/-- Comma-separated reprs of a list of values. -/
def pyReprList : List PyVal → String
  | [] => ""
  | [x] => pyRepr x
  | x :: xs => pyRepr x ++ ", " ++ pyReprList xs

/-- Comma-separated reprs of dict items. -/
def pyReprKVs : List (String × PyVal) → String
  | [] => ""
  | [(k, v)] => "'" ++ k ++ "': " ++ pyRepr v
  | (k, v) :: kvs => "'" ++ k ++ "': " ++ pyRepr v ++ ", " ++ pyReprKVs kvs

end

/-- Python `str(...)`: identity on strings, `repr` otherwise. -/
def pyStr : PyVal → String
  | .str s => s
  | v => pyRepr v

/-- Python truthiness, as used by `if ref[0]` and `pdf_names or []`. -/
def pyTruthy : PyVal → Bool
  | .none => false
  | .bool b => b
  | .int n => n != 0
  | .float q => q != 0
  | .str s => s != ""
  | .tuple xs => !xs.isEmpty
  | .list xs => !xs.isEmpty
  | .dict kvs => !kvs.isEmpty

/-- Python `float(x)`.  Numeric-string parsing is not modelled (no claim
exercises it); non-numeric arguments raise, as in CPython. -/
def pyFloat : PyVal → Except String ℚ
  | .bool b => .ok (if b then 1 else 0)
  | .int n => .ok (n : ℚ)
  | .float q => .ok q
  | .str _ => .error "ValueError: numeric-string parsing not modelled"
  | _ => .error "TypeError: float() argument"

/-- Python `int(x)`.  Floats truncate toward zero; numeric-string parsing is
not modelled (no claim exercises it). -/
def pyInt : PyVal → Except String Int
  | .bool b => .ok (if b then 1 else 0)
  | .int n => .ok n
  | .float q => .ok (q.num.tdiv q.den)
  | .str _ => .error "ValueError: numeric-string parsing not modelled"
  | _ => .error "TypeError: int() argument"

/-- Python `x + m` for an integer literal `m`, as in `current_hits + 1`. -/
def pyAddInt (v : PyVal) (m : Int) : Except String PyVal :=
  match v with
  | .bool b => .ok (.int ((if b then 1 else 0) + m))
  | .int n => .ok (.int (n + m))
  | .float q => .ok (.float (q + (m : ℚ)))
  | _ => .error "TypeError: unsupported operand type for +"

/-- `d.get(k)` on a Python dict modelled as an association list. -/
def dictGet (kvs : List (String × PyVal)) (k : String) : Option PyVal :=
  (kvs.find? (fun kv => kv.1 == k)).map (fun kv => kv.2)

/-- `d[k] = v`: replace in place if the key exists, else append (CPython
insertion order). -/
def dictSet : List (String × PyVal) → String → PyVal → List (String × PyVal)
  | [], k, v => [(k, v)]
  | (k', v') :: rest, k, v =>
      if k' == k then (k', v) :: rest else (k', v') :: dictSet rest k v

/-- `d.update(u)`: last write wins per key. -/
def dictUpdate (kvs upd : List (String × PyVal)) : List (String × PyVal) :=
  upd.foldl (fun acc kv => dictSet acc kv.1 kv.2) kvs

/-! ## The Input Normalizer (`CacheManager.add_to_cache`, lines 148-199) -/

/-- One element of the `references` normalization loop in `add_to_cache`.
A dict passes through; a list/tuple is read positionally, where `ref[0]` is
evaluated *before* any length check (so an empty sequence raises IndexError,
and a non-numeric truthy `ref[0]` or `ref[3]` raises in conversion); anything
else is wrapped via `str(...)`. -/
def process_reference (ref : PyVal) : Except String PyVal :=
  match ref with
  | .dict kvs => .ok (.dict kvs)
  | .list xs => process_reference_seq xs
  | .tuple xs => process_reference_seq xs
  | v =>
      .ok (.dict [("text", .str (pyStr v)), ("score", .float 0),
                  ("file_name", .none), ("page", .none)])
where
  /-- The `[score, text, filename, page]` positional branch.  The dict literal
  evaluates `"text"` first, then `"score"` (which indexes `ref[0]`
  unconditionally), then `"file_name"`, then `"page"`. -/
  process_reference_seq (xs : List PyVal) : Except String PyVal := do
    let text := match xs.get? 1 with
      | some v => pyStr v
      | Option.none => ""
    let score ← match xs.get? 0 with
      | Option.none => .error "IndexError: list index out of range"
      | some v => if pyTruthy v then pyFloat v else .ok 0
    let file_name := match xs.get? 2 with
      | some v => PyVal.str (pyStr v)
      | Option.none => PyVal.none
    let page ← match xs.get? 3 with
      | some v =>
          if pyTruthy v then (pyInt v).map PyVal.int else .ok PyVal.none
      | Option.none => .ok PyVal.none
    .ok (.dict [("text", .str text), ("score", .float score),
                ("file_name", file_name), ("page", page)])

/-- The whole `references` loop: first failure aborts `add_to_cache`. -/
def process_references : List PyVal → Except String (List PyVal)
  | [] => .ok []
  | ref :: rest => do
      let p ← process_reference ref
      let ps ← process_references rest
      .ok (p :: ps)

/-- One element of the `cited_refs` loop.  `isinstance(ref, int)` is true for
Python bools, so they take the `index` branch. -/
def process_cited_ref (ref : PyVal) : PyVal :=
  match ref with
  | .dict kvs => .dict kvs
  | .int n =>
      .dict [("index", .int n), ("text", .none), ("page", .none),
             ("file_name", .none)]
  | .bool b =>
      .dict [("index", .bool b), ("text", .none), ("page", .none),
             ("file_name", .none)]
  | v =>
      .dict [("text", .str (pyStr v)), ("index", .none), ("page", .none),
             ("file_name", .none)]

/-- The `cited_refs` loop (total: no branch can raise). -/
def process_cited_refs (refs : List PyVal) : List PyVal :=
  refs.map process_cited_ref

/-- The `pdf_info` normalization: a list merges its dict elements
(last write wins, non-dict elements skipped); a dict passes through;
anything else (including a tuple) is wrapped under the `"info"` key. -/
def process_pdf_info (pdf_info : PyVal) : PyVal :=
  match pdf_info with
  | .list items =>
      .dict (items.foldl
        (fun acc item =>
          match item with
          | .dict kvs => dictUpdate acc kvs
          | _ => acc) [])
  | .dict kvs => .dict kvs
  | v => .dict [("info", .str (pyStr v))]

/-! ## The external Milvus collection (`milvus_client.py` schema,
`vector_store.py` operations) -/

/-- One stored row, following the collection schema declared in
`MilvusClientSingleton._init_collection`. -/
structure Row where
  id : String
  query_vector : List ℚ
  query_text : String
  result_vector : List ℚ
  result_text : String
  email : String
  metadata : PyVal
  created_at : String
  project_id : String
deriving Repr

/-- Milvus boolean filter expressions, as far as this code builds them:
`field == "value"`, `field like "%kw%"`, `and`, `or`.  The Python code builds
these as strings; the embedding keeps them structured and lets the store
evaluate them per row. -/
inductive MExpr where
  | eqStr (field value : String)
  | like (field pattern : String)
  | and (a b : MExpr)
  | or (a b : MExpr)
deriving Repr, DecidableEq

/-- The string-valued schema fields an expression may mention. -/
def field_str (r : Row) : String → String
  | "id" => r.id
  | "query_text" => r.query_text
  | "result_text" => r.result_text
  | "email" => r.email
  | "project_id" => r.project_id
  | "created_at" => r.created_at
  | _ => ""

/-- `s like "%pat%"`: substring containment. -/
def str_contains (s pat : String) : Bool :=
  decide (pat.data <:+: s.data)

/-- Evaluate a filter expression on a row. -/
def eval_expr (r : Row) : MExpr → Bool
  | .eqStr f v => field_str r f == v
  | .like f p => str_contains (field_str r f) p
  | .and a b => eval_expr r a && eval_expr r b
  | .or a b => eval_expr r a || eval_expr r b

/-! ### Milvus filter-expression strings

The Python code does not build `MExpr` values: it interpolates caller data
into an expression *string* (`f'email == "{email}" && project_id ==
"{project_id}"'`, `cache_manager.py` line 82) that the Milvus server parses.
The fragment of Milvus's boolean grammar reachable from that interpolation is
modelled here: identifiers, double-quoted string literals (no escape
sequences), `==`, `&&`, `||`, with `&&` binding tighter than `||`.  A scope
value containing `"` terminates the literal early and the remainder is parsed
as expression syntax — the filter-injection behavior of the source. -/

/-- Tokens of the modelled expression fragment. -/
inductive Tok where
  | ident (s : String)
  | lit (s : String)
  | eqTok
  | andTok
  | orTok
deriving Repr, DecidableEq

/-- Scanner mode: between tokens, inside an identifier, inside a quoted
literal, or halfway through `&&` / `||` / `==`. -/
inductive TokMode where
  | ws
  | ident (acc : List Char)
  | instr (acc : List Char)
  | amp1
  | bar1
  | eq1
deriving Repr, DecidableEq

/-- Scanner state: tokens emitted so far, current mode, error flag. -/
structure TokState where
  toks : List Tok
  mode : TokMode
  ok : Bool
deriving Repr, DecidableEq

/-- Identifier characters (field names). -/
def identChar (c : Char) : Bool :=
  c.isAlpha || c.isDigit || c == '_'

/-- One scanner transition. -/
def scan_step (st : TokState) (c : Char) : TokState :=
  match st.mode with
  | .instr acc =>
      if c == '"' then ⟨st.toks ++ [.lit (String.mk acc)], .ws, st.ok⟩
      else ⟨st.toks, .instr (acc ++ [c]), st.ok⟩
  | .ws =>
      if c == ' ' then ⟨st.toks, .ws, st.ok⟩
      else if c == '"' then ⟨st.toks, .instr [], st.ok⟩
      else if c == '&' then ⟨st.toks, .amp1, st.ok⟩
      else if c == '|' then ⟨st.toks, .bar1, st.ok⟩
      else if c == '=' then ⟨st.toks, .eq1, st.ok⟩
      else if identChar c then ⟨st.toks, .ident [c], st.ok⟩
      else ⟨st.toks, .ws, false⟩
  | .ident acc =>
      if identChar c then ⟨st.toks, .ident (acc ++ [c]), st.ok⟩
      else if c == ' ' then ⟨st.toks ++ [.ident (String.mk acc)], .ws, st.ok⟩
      else if c == '"' then
        ⟨st.toks ++ [.ident (String.mk acc)], .instr [], st.ok⟩
      else if c == '&' then ⟨st.toks ++ [.ident (String.mk acc)], .amp1, st.ok⟩
      else if c == '|' then ⟨st.toks ++ [.ident (String.mk acc)], .bar1, st.ok⟩
      else if c == '=' then ⟨st.toks ++ [.ident (String.mk acc)], .eq1, st.ok⟩
      else ⟨st.toks, .ws, false⟩
  | .amp1 =>
      if c == '&' then ⟨st.toks ++ [.andTok], .ws, st.ok⟩
      else ⟨st.toks, .ws, false⟩
  | .bar1 =>
      if c == '|' then ⟨st.toks ++ [.orTok], .ws, st.ok⟩
      else ⟨st.toks, .ws, false⟩
  | .eq1 =>
      if c == '=' then ⟨st.toks ++ [.eqTok], .ws, st.ok⟩
      else ⟨st.toks, .ws, false⟩

/-- Scan a whole expression string into tokens. -/
def tokenize (s : String) : Option (List Tok) :=
  let st := s.data.foldl scan_step ⟨[], .ws, true⟩
  match st.ok, st.mode with
  | true, .ws => some st.toks
  | true, .ident acc => some (st.toks ++ [.ident (String.mk acc)])
  | _, _ => Option.none

/-- Parse one comparison `field == "value"`. -/
def parse_cmp : List Tok → Option (MExpr × List Tok)
  | .ident f :: .eqTok :: .lit v :: rest => some (.eqStr f v, rest)
  | _ => Option.none

/-- Fold further `&& cmp` conjuncts onto `acc` (left-associative). -/
def parse_and_tail : ℕ → MExpr → List Tok → Option (MExpr × List Tok)
  | fuel, acc, .andTok :: rest =>
      (match fuel, parse_cmp rest with
       | fuel' + 1, some (e, rest') => parse_and_tail fuel' (.and acc e) rest'
       | _, _ => Option.none)
  | _, acc, toks => some (acc, toks)

/-- Parse a `&&`-level expression. -/
def parse_and_expr (fuel : ℕ) (toks : List Tok) : Option (MExpr × List Tok) :=
  match parse_cmp toks with
  | some (e, rest) => parse_and_tail fuel e rest
  | Option.none => Option.none

/-- Fold further `|| andExpr` disjuncts onto `acc`; `&&` binds tighter. -/
def parse_or_tail : ℕ → MExpr → List Tok → Option (MExpr × List Tok)
  | fuel, acc, .orTok :: rest =>
      (match fuel, parse_and_expr fuel rest with
       | fuel' + 1, some (e, rest') => parse_or_tail fuel' (.or acc e) rest'
       | _, _ => Option.none)
  | _, acc, toks => some (acc, toks)

/-- Parse a Milvus filter-expression string, as the server does before
searching; `Option.none` models a server-side parse error (which surfaces as
an exception of the `collection.search` call). -/
def parse_expr (s : String) : Option MExpr :=
  match tokenize s with
  | Option.none => Option.none
  | some toks =>
    match parse_and_expr (toks.length + 1) toks with
    | some (e, rest) =>
      match parse_or_tail (rest.length + 1) e rest with
      | some (e', []) => some e'
      | _ => Option.none
    | Option.none => Option.none

/-- Milvus's `L2` metric reports the *squared* L2 distance (0 = identical,
smaller = more similar). -/
def l2_distance (v w : List ℚ) : ℚ :=
  ((v.zip w).map (fun p => (p.1 - p.2) ^ 2)).sum

/-- Which indexed vector field a search runs against (`anns_field`). -/
def field_vector (r : Row) (field : String) : List ℚ :=
  if field == "result_vector" then r.result_vector else r.query_vector

/-- Ascending-distance order on scored rows. -/
def distLE (a b : ℚ × Row) : Prop := a.1 ≤ b.1

instance : DecidableRel distLE :=
  fun a b => inferInstanceAs (Decidable (a.1 ≤ b.1))

instance : IsTotal (ℚ × Row) distLE := ⟨fun a b => le_total a.1 b.1⟩

instance : IsTrans (ℚ × Row) distLE := ⟨fun _ _ _ h h' => le_trans h h'⟩

/-- `collection.search(data=[v], anns_field=field, limit=top_k, expr=expr)`:
restrict to rows matching the filter, score each by distance to the query
vector, and return the `top_k` nearest in ascending distance order. -/
def collection_search (rows : List Row) (query_vector : List ℚ)
    (field : String) (top_k : ℕ) (expr : Option MExpr) : List (ℚ × Row) :=
  let matching := rows.filter (fun r =>
    match expr with
    | Option.none => true
    | some e => eval_expr r e)
  let scored := matching.map (fun r =>
    (l2_distance query_vector (field_vector r field), r))
  (List.insertionSort distLE scored).take top_k

/-- The hit dict built by `VectorStore.search_similar` from one raw hit:
`hit.score` is the raw distance reported by the index. -/
structure Hit where
  id : String
  score : ℚ
  query_text : String
  email : String
  result_text : String
  metadata : PyVal
  created_at : String
  project_id : String
deriving Repr

/-- The list-comprehension over `results[0]` in `search_similar` /
`hybrid_search`, applied to the outcome of the index call; the `except`
branch turns any index failure into an empty result list. -/
def hits_of_search : Except String (List (ℚ × Row)) → List Hit
  | .error _ => []
  | .ok scored => scored.map (fun p =>
      ⟨p.2.id, p.1, p.2.query_text, p.2.email, p.2.result_text, p.2.metadata,
       p.2.created_at, p.2.project_id⟩)

/-- `VectorStore.search_similar` on a live index (the happy path of the
`try`). -/
def search_similar (rows : List Row) (query_vector : List ℚ) (top_k : ℕ)
    (field : String) (expr : Option MExpr) : List Hit :=
  hits_of_search (.ok (collection_search rows query_vector field top_k expr))

/-- `" or ".join` over keyword conditions. -/
def join_or (c : MExpr) (cs : List MExpr) : MExpr :=
  cs.foldl MExpr.or c

/-- `VectorStore.hybrid_search`: OR together the per-keyword conditions,
AND with the caller's filter when both exist, search `result_vector`,
then post-filter hits by raw distance `< 1.5` and return at most `top_k`. -/
def hybrid_search (rows : List Row) (query_vector : List ℚ) (top_k : ℕ)
    (expr : Option MExpr) (keywords : List String) : List Hit :=
  let keyword_conditions := keywords.map (fun k =>
    MExpr.or (.like "query_text" k) (.like "result_text" k))
  let final_expr : Option MExpr :=
    match keyword_conditions, expr with
    | [], e => e
    | c :: cs, some e => some (.and (join_or c cs) e)
    | c :: cs, Option.none => some (join_or c cs)
  let results :=
    hits_of_search (.ok (collection_search rows query_vector "result_vector"
      top_k final_expr))
  let filtered_results := results.filter (fun h => decide (h.score < 1.5))
  filtered_results.take top_k

/-! ## The Cache Manager (`cache_manager.py`) -/

/-- Modelled from the spec: `CacheEntry` from the missing `models.py`
(§3 DATA MODEL).  Sub-structure fields carry the normalizer's `PyVal`
output unvalidated; timestamps are opaque strings. -/
structure CacheEntry where
  query_id : String
  query_text : String
  query_vector : List ℚ
  result_vector : List ℚ
  email : String
  result_text : String
  references : PyVal
  pdf_names : PyVal
  cited_refs : PyVal
  pdf_info : PyVal
  created_at : String
  last_accessed : String
  hit_count : PyVal
  relevance_score : ℚ
  project_id : String
  cache_management : PyVal
deriving Repr

/-- Modelled from the spec: `CacheSearchResult` from the missing `models.py`
(§3, `SearchResult`). -/
structure CacheSearchResult where
  found : Bool
  entry : Option CacheEntry
  similarity_score : Option ℚ
deriving Repr

/-- `CacheManager._generate_query_id`: the sha256 hashing of the combined
string is not modelled; the id is its (injective) preimage
`query:email:project:now`. -/
def generate_query_id (query_text email project_id now : String) : String :=
  query_text ++ ":" ++ email ++ ":" ++ project_id ++ ":" ++ now

/-- `CacheManager.increment_hit_count`: query the row by id, default
`hit_count` to 0 when missing (and the whole metadata to `{}` when it is not
a dict), write back `current + 1` under the same id via `collection.update`.
Any failure (missing entry, unaddable stored count) returns `False` and
leaves the store unchanged. -/
def increment_hit_count (rows : List Row) (entry_id : String) :
    Bool × List Row :=
  match rows.filter (fun r => r.id == entry_id) with
  | [] => (false, rows)
  | r :: _ =>
    let kvs := match r.metadata with
      | .dict kvs => kvs
      | _ => []
    match pyAddInt ((dictGet kvs "hit_count").getD (.int 0)) 1 with
    | .error _ => (false, rows)
    | .ok new_count =>
      let new_meta := PyVal.dict (dictSet kvs "hit_count" new_count)
      (true, rows.map (fun row =>
        if row.id == entry_id then { row with metadata := new_meta } else row))

/-- The scope filter `email == "..." && project_id == "..."` built by
`search_cache`. -/
def scope_expr (email project_id : String) : MExpr :=
  .and (.eqStr "email" email) (.eqStr "project_id" project_id)

/-- The actual filter built by `search_cache`
(`cache_manager.py` line 82): the f-string
`email == "{email}" && project_id == "{project_id}"`, with the caller's
scope values interpolated verbatim — no quoting or escaping. -/
def scope_expr_string (email project_id : String) : String :=
  "email == \"" ++ email ++ "\" && project_id == \"" ++ project_id ++ "\""

/-- `VectorStore.search_similar` as called with a filter *string*: the
server parses the expression before searching; a parse failure is an error
of the index call, which the `except` branch turns into `[]`. -/
def search_similar_str (rows : List Row) (query_vector : List ℚ)
    (top_k : ℕ) (field : String) (expr : Option String) : List Hit :=
  match expr with
  | Option.none =>
      hits_of_search (.ok (collection_search rows query_vector field top_k
        Option.none))
  | some s =>
    match parse_expr s with
    | some e =>
        hits_of_search (.ok (collection_search rows query_vector field top_k
          (some e)))
    | Option.none => hits_of_search (.error "cannot parse expression")

/-- The `entry_dict` construction on the hit path of `search_cache`.  It can
raise (into the surrounding `except`) when the stored metadata is not a dict
or the stored `hit_count` is not addable. -/
def entry_from_best (best : Hit) (query_vector result_vector : List ℚ)
    (now : String) (cache_management : PyVal) : Except String CacheEntry := do
  let kvs ← match best.metadata with
    | .dict kvs => Except.ok kvs
    | _ => Except.error "AttributeError: metadata is not a dict"
  let hit_count ← pyAddInt ((dictGet kvs "hit_count").getD (.int 0)) 1
  Except.ok ⟨best.id, best.query_text, query_vector, result_vector, best.email,
    best.result_text,
    (dictGet kvs "references").getD (.list []),
    (dictGet kvs "pdf_names").getD (.list []),
    (dictGet kvs "cited_refs").getD (.list []),
    (dictGet kvs "pdf_info").getD (.dict []),
    best.created_at, now, hit_count, best.score, best.project_id,
    cache_management⟩

/-- The body of `CacheManager.search_cache` after the retrieval call: no
candidates or best score `< 0.7` report a miss; otherwise hit accounting runs
and the entry is reconstructed (a failure there is swallowed into
`found=False`, after the store was already updated). -/
def search_cache_aux (results : List Hit) (embed : String → List ℚ)
    (now : String) (rows : List Row) (query_text : String)
    (query_vector : List ℚ) (cache_management : PyVal) :
    CacheSearchResult × List Row :=
  let result_vector := embed query_text
  match results with
  | [] => (⟨false, Option.none, Option.none⟩, rows)
  | best :: _ =>
    let similarity_score := best.score
    if similarity_score < 0.7 then (⟨false, Option.none, Option.none⟩, rows)
    else
      let rows' := (increment_hit_count rows best.id).2
      match entry_from_best best query_vector result_vector now
          cache_management with
      | .ok entry => (⟨true, some entry, some similarity_score⟩, rows')
      | .error _ => (⟨false, Option.none, Option.none⟩, rows')

/-- `CacheManager.search_cache`: a keyword-less `search_similar` over the
default `query_vector` field with `top_k = 5`, scoped to the caller's
`(email, project_id)`. -/
def search_cache (embed : String → List ℚ) (now : String) (rows : List Row)
    (query_text : String) (query_vector : List ℚ)
    (email project_id : String) (cache_management : PyVal) :
    CacheSearchResult × List Row :=
  search_cache_aux
    (search_similar rows query_vector 5 "query_vector"
      (some (scope_expr email project_id)))
    embed now rows query_text query_vector cache_management

/-- `CacheManager.search_cache` with the filter modelled at the string level
it actually uses: the interpolated scope expression is parsed by the store,
so scope values containing `"` rewrite the filter (injection). -/
def search_cache_str (embed : String → List ℚ) (now : String)
    (rows : List Row) (query_text : String) (query_vector : List ℚ)
    (email project_id : String) (cache_management : PyVal) :
    CacheSearchResult × List Row :=
  search_cache_aux
    (search_similar_str rows query_vector 5 "query_vector"
      (some (scope_expr_string email project_id)))
    embed now rows query_text query_vector cache_management

/-- The metadata JSON assembled by `VectorStore.insert_entry`. -/
def metadata_of_entry (entry : CacheEntry) : PyVal :=
  .dict [("references", entry.references), ("pdf_names", entry.pdf_names),
         ("cited_refs", entry.cited_refs), ("pdf_info", entry.pdf_info),
         ("hit_count", entry.hit_count),
         ("relevance_score", .float entry.relevance_score),
         ("cache_management", entry.cache_management)]

/-- The row `VectorStore.insert_entry` appends to the collection. -/
def row_of_entry (entry : CacheEntry) : Row :=
  ⟨entry.query_id, entry.query_vector, entry.query_text, entry.result_vector,
   entry.result_text, entry.email, metadata_of_entry entry, entry.created_at,
   entry.project_id⟩

/-- `CacheManager.add_to_cache`: run the Input Normalizer (whose only
fallible stage is the `references` loop; its exception is caught and turned
into `False` with nothing stored), then build the entry with `hit_count = 1`,
`relevance_score = 1.0`, `created_at = last_accessed = now`, and insert it. -/
def add_to_cache (now : String) (rows : List Row) (query_text : String)
    (query_vector result_vector : List ℚ) (email result_text : String)
    (references : List PyVal) (pdf_names : List String)
    (cited_refs : List PyVal) (pdf_info : PyVal) (project_id : String)
    (cache_management : PyVal) : Bool × List Row :=
  match process_references references with
  | .error _ => (false, rows)
  | .ok processed_references =>
    let processed_pdf_info := process_pdf_info pdf_info
    let processed_cited_refs := process_cited_refs cited_refs
    let entry : CacheEntry :=
      ⟨generate_query_id query_text email project_id now, query_text,
       query_vector, result_vector, email, result_text,
       .list processed_references, .list (pdf_names.map PyVal.str),
       .list processed_cited_refs, processed_pdf_info, now, now, .int 1, 1,
       project_id, cache_management⟩
    (true, rows ++ [row_of_entry entry])

/-- The parameter names of `VectorStore.search_similar`
(`query_vector, top_k, field, expr`; `self` is bound by the method call). -/
def search_similar_params : List String :=
  ["query_vector", "top_k", "field", "expr"]

/-- Python keyword-argument binding: a call supplying a keyword that is not
among the callee's parameters raises `TypeError` before the body runs. -/
def bind_kwargs (provided : List String) : Except String Unit :=
  if provided.all (fun n => search_similar_params.contains n) then .ok ()
  else .error "TypeError: unexpected keyword argument"

/-- `CacheManager.search_by_result` calls
`search_similar(result_vector=..., top_k=..., field="result_vector")`, but
`search_similar` has no parameter named `result_vector`; the `TypeError` is
caught and turned into `[]`. -/
def search_by_result (embed : String → List ℚ) (rows : List Row)
    (result_text : String) (top_k : ℕ) : List Hit :=
  let result_vector := embed result_text
  match bind_kwargs ["result_vector", "top_k", "field"] with
  | .error _ => []
  | .ok _ => search_similar rows result_vector top_k "result_vector"
      Option.none

/-! ## Listing / pagination (`VectorStore.get_all_entries`,
`CacheManager.get_cache_entries`, `interactive_menu`) -/

/-- Reverse-chronological order on rows (`sort_fields=["created_at"],
sort_orders=["DESC"]`). -/
def createdDesc (a b : Row) : Prop := b.created_at ≤ a.created_at

instance : DecidableRel createdDesc :=
  fun a b => inferInstanceAs (Decidable (b.created_at ≤ a.created_at))

instance : IsTotal Row createdDesc := ⟨fun a b => le_total b.created_at a.created_at⟩

instance : IsTrans Row createdDesc := ⟨fun _ _ _ h h' => le_trans h' h⟩

/-- `VectorStore.get_all_entries`: empty collection short-circuits; otherwise
query all rows sorted descending by `created_at` with the given offset and
limit. -/
def get_all_entries (rows : List Row) (limit offset : ℕ) : List Row :=
  if rows.length == 0 then []
  else ((List.insertionSort createdDesc rows).drop offset).take limit

/-- `CacheManager.page_size` in `cache_manager.py`. -/
def cache_manager_page_size : ℕ := 10

/-- `CacheManager.get_cache_entries`: fetch all entries (at the default
`limit=100, offset=0` of `get_all_entries`), then slice
`[(page-1)*page_size : min(page*page_size, total)]` in memory.  The
`result_vector` backfill loop is a no-op here since every modelled row
carries its vectors. -/
def get_cache_entries (rows : List Row) (page : ℕ) : List Row × ℕ :=
  let all_entries := get_all_entries rows 100 0
  let total_count := all_entries.length
  if total_count == 0 then ([], 0)
  else
    let start_idx := (page - 1) * cache_manager_page_size
    let end_idx := min (start_idx + cache_manager_page_size) total_count
    ((all_entries.drop start_idx).take (end_idx - start_idx), total_count)

/-- `total_pages = math.ceil(total_count / cache_manager.page_size)` computed
by `interactive_menu` in `manage_cache.py`. -/
def total_pages (total_count page_size : ℕ) : ℤ :=
  ⌈(total_count : ℚ) / (page_size : ℚ)⌉

/-! ## Helper lemmas -/

/-- Squared-L2 distances are nonnegative. -/
theorem l2_distance_nonneg (v w : List ℚ) : 0 ≤ l2_distance v w := by
  unfold l2_distance
  apply List.sum_nonneg
  intro x hx
  obtain ⟨p, _, rfl⟩ := List.mem_map.1 hx
  exact sq_nonneg _

/-- Every scored pair returned by the index comes from a stored row matching
the filter, scored by its distance to the query vector. -/
theorem mem_collection_search {p : ℚ × Row} {rows : List Row}
    {qv : List ℚ} {field : String} {k : ℕ} {expr : Option MExpr}
    (hp : p ∈ collection_search rows qv field k expr) :
    p.2 ∈ rows ∧ (∀ e, expr = some e → eval_expr p.2 e = true) ∧
      p.1 = l2_distance qv (field_vector p.2 field) := by
  unfold collection_search at hp
  have h1 := List.mem_of_mem_take hp
  have h2 := (List.perm_insertionSort distLE _).mem_iff.1 h1
  obtain ⟨r, hr, rfl⟩ := List.mem_map.1 h2
  obtain ⟨hrows, hpred⟩ := List.mem_filter.1 hr
  refine ⟨hrows, ?_, rfl⟩
  intro e he
  subst he
  simpa using hpred

/-- The index's ranked list is sorted by ascending distance. -/
theorem pairwise_collection_search (rows : List Row) (qv : List ℚ)
    (field : String) (k : ℕ) (expr : Option MExpr) :
    (collection_search rows qv field k expr).Pairwise distLE := by
  unfold collection_search
  exact List.Pairwise.sublist (List.take_sublist _ _)
    (List.sorted_insertionSort distLE _)

/-- Every hit of `search_similar` reflects a stored row matching the filter,
with `score` equal to the raw distance. -/
theorem mem_search_similar {h : Hit} {rows : List Row} {qv : List ℚ}
    {k : ℕ} {f : String} {e : Option MExpr}
    (hh : h ∈ search_similar rows qv k f e) :
    ∃ r, r ∈ rows ∧ (∀ e', e = some e' → eval_expr r e' = true) ∧
      h.score = l2_distance qv (field_vector r f) ∧ h.id = r.id ∧
      h.email = r.email ∧ h.project_id = r.project_id := by
  unfold search_similar hits_of_search at hh
  obtain ⟨p, hp, rfl⟩ := List.mem_map.1 hh
  obtain ⟨hrows, hpred, hscore⟩ := mem_collection_search hp
  exact ⟨p.2, hrows, hpred, hscore, rfl, rfl, rfl⟩

/-- A row passing the scope filter agrees with it on both scope fields. -/
theorem eval_scope_expr {r : Row} {email project_id : String}
    (h : eval_expr r (scope_expr email project_id) = true) :
    r.email = email ∧ r.project_id = project_id := by
  simp [scope_expr, eval_expr, field_str] at h
  exact h

/-- A successfully reconstructed entry carries the matched hit's scope
fields. -/
theorem entry_from_best_fields {best : Hit} {qv rv : List ℚ} {now : String}
    {cm : PyVal} {e : CacheEntry}
    (h : entry_from_best best qv rv now cm = .ok e) :
    e.email = best.email ∧ e.project_id = best.project_id := by
  unfold entry_from_best at h
  cases hm : best.metadata <;> rw [hm] at h <;>
    simp only [Except.bind, bind] at h <;>
    first
    | exact absurd h (by simp)
    | skip
  rename_i kvs
  cases hc : pyAddInt ((dictGet kvs "hit_count").getD (.int 0)) 1 <;>
    rw [hc] at h
  · exact absurd h (by simp)
  · simp only [Except.ok.injEq] at h
    subst h
    exact ⟨rfl, rfl⟩

/-- Setting one dict key leaves every other key's value unchanged. -/
theorem dictGet_dictSet_of_ne (kvs : List (String × PyVal)) (k k' : String)
    (v : PyVal) (hne : k' ≠ k) :
    dictGet (dictSet kvs k v) k' = dictGet kvs k' := by
  induction kvs with
  | nil =>
      simp only [dictGet, dictSet, List.find?]
      cases hkk : (k == k') with
      | true => exact (hne (eq_of_beq hkk).symm).elim
      | false => rfl
  | cons kv rest ih =>
      by_cases hk : kv.1 = k
      · subst hk
        simp only [dictSet, beq_self_eq_true, if_true]
        simp only [dictGet, List.find?]
        have : (kv.1 == k') = false := by
          simp only [beq_eq_false_iff_ne]
          exact fun hh => hne (hh ▸ rfl)
        simp [this]
      · have hbeq : (kv.1 == k) = false := by simpa using hk
        obtain ⟨k0, v0⟩ := kv
        simp only at hbeq
        simp only [dictSet, hbeq, if_false]
        simp only [dictGet, List.find?] at ih ⊢
        cases hk0 : (k0 == k') <;> simp [hk0, ih]

/-- Rebuilding a string from its character data is the identity. -/
theorem string_mk_data (s : String) : String.mk s.data = s := by
  cases s with
  | mk l => rfl

/-- `scan_step` only ever appends to the token list; the emitted tokens, the
new mode and the flag do not depend on the tokens already emitted. -/
theorem scan_step_toks (toks : List Tok) (m : TokMode) (ok : Bool)
    (c : Char) :
    scan_step ⟨toks, m, ok⟩ c =
      ⟨toks ++ (scan_step ⟨[], m, ok⟩ c).toks,
       (scan_step ⟨[], m, ok⟩ c).mode, (scan_step ⟨[], m, ok⟩ c).ok⟩ := by
  cases m <;> simp only [scan_step] <;> split_ifs <;> simp

/-- The whole scan factors over the tokens already emitted. -/
theorem scan_foldl_toks (cs : List Char) (toks : List Tok) (m : TokMode)
    (ok : Bool) :
    List.foldl scan_step ⟨toks, m, ok⟩ cs =
      ⟨toks ++ (List.foldl scan_step ⟨[], m, ok⟩ cs).toks,
       (List.foldl scan_step ⟨[], m, ok⟩ cs).mode,
       (List.foldl scan_step ⟨[], m, ok⟩ cs).ok⟩ := by
  induction cs generalizing toks m ok with
  | nil => simp
  | cons c cs ih =>
      simp only [List.foldl_cons]
      rw [scan_step_toks toks m ok c]
      rw [ih]
      conv_rhs =>
        rw [show scan_step ⟨[], m, ok⟩ c =
          ⟨(scan_step ⟨[], m, ok⟩ c).toks, (scan_step ⟨[], m, ok⟩ c).mode,
           (scan_step ⟨[], m, ok⟩ c).ok⟩ from rfl]
        rw [ih]
      simp [List.append_assoc]

/-- Inside a quoted literal the scanner swallows every quote-free character
into the accumulator. -/
theorem scan_instr (cs : List Char) (h : ∀ c ∈ cs, c ≠ '"')
    (toks : List Tok) (acc : List Char) (ok : Bool) :
    List.foldl scan_step ⟨toks, .instr acc, ok⟩ cs =
      ⟨toks, .instr (acc ++ cs), ok⟩ := by
  induction cs generalizing acc with
  | nil => simp
  | cons c cs ih =>
      have hc : (c == '"') = false := by
        simpa using h c (List.mem_cons_self _ _)
      simp only [List.foldl_cons]
      rw [show scan_step ⟨toks, .instr acc, ok⟩ c =
        ⟨toks, .instr (acc ++ [c]), ok⟩ from by simp [scan_step, hc]]
      rw [ih (fun c' hc' => h c' (List.mem_cons_of_mem _ hc'))]
      simp

/-- A scan segment computed from a clean state can be replayed after any
already-emitted tokens. -/
theorem scan_ws_seg (cs : List Char) (res : TokState)
    (hres : List.foldl scan_step ⟨[], .ws, true⟩ cs = res)
    (toks : List Tok) :
    List.foldl scan_step ⟨toks, .ws, true⟩ cs =
      ⟨toks ++ res.toks, res.mode, res.ok⟩ := by
  rw [scan_foldl_toks, hres]

/-- Scanning the interpolated scope filter of quote-free scope values yields
exactly the seven expected tokens. -/
theorem tokenize_scope_expr_string (email project_id : String)
    (he : ∀ c ∈ email.data, c ≠ '"')
    (hp : ∀ c ∈ project_id.data, c ≠ '"') :
    tokenize (scope_expr_string email project_id) =
      some [.ident "email", .eqTok, .lit email, .andTok,
            .ident "project_id", .eqTok, .lit project_id] := by
  have hdata : (scope_expr_string email project_id).data =
      "email == \"".data ++ (email.data ++ (("\"".data ++
        " && project_id == \"".data) ++ (project_id.data ++ "\"".data))) := by
    simp [scope_expr_string, String.data_append]
  unfold tokenize
  rw [hdata]
  simp only [List.foldl_append]
  rw [show List.foldl scan_step ⟨[], .ws, true⟩ ("email == \"".data) =
    ⟨[.ident "email", .eqTok], .instr [], true⟩ from by decide]
  rw [scan_instr email.data he]
  simp only [List.nil_append]
  rw [show ∀ (toks : List Tok) (acc : List Char) (ok : Bool),
    List.foldl scan_step ⟨toks, TokMode.instr acc, ok⟩ ['\"'] =
      ⟨toks ++ [Tok.lit (String.mk acc)], TokMode.ws, ok⟩
    from fun _ _ _ => rfl]
  rw [string_mk_data]
  rw [scan_ws_seg
    [' ', '&', '&', ' ', 'p', 'r', 'o', 'j', 'e', 'c', 't', '_', 'i', 'd',
     ' ', '=', '=', ' ', '\"']
    ⟨[.andTok, .ident "project_id", .eqTok], .instr [], true⟩ (by decide)]
  rw [scan_instr project_id.data hp]
  simp only [List.nil_append]
  rw [show ∀ (toks : List Tok) (acc : List Char) (ok : Bool),
    List.foldl scan_step ⟨toks, TokMode.instr acc, ok⟩ ['\"'] =
      ⟨toks ++ [Tok.lit (String.mk acc)], TokMode.ws, ok⟩
    from fun _ _ _ => rfl]
  rw [string_mk_data]
  simp

/-- For quote-free scope values the interpolated filter string parses to the
exact-match scope conjunction — the structured model is faithful exactly on
this fragment. -/
theorem parse_scope_expr_string (email project_id : String)
    (he : ∀ c ∈ email.data, c ≠ '"')
    (hp : ∀ c ∈ project_id.data, c ≠ '"') :
    parse_expr (scope_expr_string email project_id) =
      some (scope_expr email project_id) := by
  unfold parse_expr
  rw [tokenize_scope_expr_string email project_id he hp]
  rfl

/-- On quote-free scope values the string-filter search agrees with the
structured-filter search. -/
theorem search_similar_str_quotefree (rows : List Row) (qv : List ℚ)
    (k : ℕ) (f : String) (email project_id : String)
    (he : ∀ c ∈ email.data, c ≠ '"')
    (hp : ∀ c ∈ project_id.data, c ≠ '"') :
    search_similar_str rows qv k f (some (scope_expr_string email project_id))
      = search_similar rows qv k f (some (scope_expr email project_id)) := by
  unfold search_similar_str search_similar
  dsimp only
  rw [parse_scope_expr_string email project_id he hp]

/-- On quote-free scope values the string-filter lookup agrees with the
structured-filter lookup. -/
theorem search_cache_str_quotefree (embed : String → List ℚ) (now : String)
    (rows : List Row) (qt : String) (qv : List ℚ)
    (email project_id : String) (cm : PyVal)
    (he : ∀ c ∈ email.data, c ≠ '"')
    (hp : ∀ c ∈ project_id.data, c ≠ '"') :
    search_cache_str embed now rows qt qv email project_id cm =
      search_cache embed now rows qt qv email project_id cm := by
  unfold search_cache_str search_cache
  rw [search_similar_str_quotefree rows qv 5 "query_vector" email project_id
    he hp]

/-- Searching the default field reads the stored query vector. -/
theorem field_vector_query (r : Row) :
    field_vector r "query_vector" = r.query_vector := rfl

/-- Searching the `result_vector` field reads the stored result vector. -/
theorem field_vector_result (r : Row) :
    field_vector r "result_vector" = r.result_vector := rfl

/-! ## Claim theorems -/

/-- The structured-filter half of the scope-isolation argument: once the
scope filter has been parsed to its exact-match conjunction, a lookup only
surfaces candidates whose stored `email` and `project_id` both match it, and
any entry returned by `search_cache` carries that same scope. -/
theorem structured_scope_isolation :
    (∀ (rows : List Row) (qv : List ℚ) (email project_id : String),
      (search_similar rows qv 5 "query_vector"
        (some (scope_expr email project_id))).all
        (fun h => h.email == email && h.project_id == project_id) = true)
    ∧ (∀ (embed : String → List ℚ) (now : String) (rows : List Row)
        (query_text : String) (qv : List ℚ) (email project_id : String)
        (cm : PyVal) (e : CacheEntry),
        (search_cache embed now rows query_text qv email project_id cm).1.entry
          = some e →
        e.email = email ∧ e.project_id = project_id) := by
  constructor
  · intro rows qv email pid
    rw [List.all_eq_true]
    intro h hh
    obtain ⟨r, _, hpred, _, _, hem, hpid⟩ := mem_search_similar hh
    obtain ⟨he, hp⟩ := eval_scope_expr (hpred _ rfl)
    rw [hem, hpid, he, hp]
    simp
  · intro embed now rows qt qv email pid cm e hentry
    unfold search_cache search_cache_aux at hentry
    cases hres : search_similar rows qv 5 "query_vector"
        (some (scope_expr email pid)) with
    | nil => rw [hres] at hentry; simp at hentry
    | cons best rest =>
      rw [hres] at hentry
      dsimp only at hentry
      by_cases hlt : best.score < 0.7
      · rw [if_pos hlt] at hentry
        simp at hentry
      · rw [if_neg hlt] at hentry
        cases hE : entry_from_best best qv (embed qt) now cm with
        | error msg => rw [hE] at hentry; simp at hentry
        | ok e' =>
          rw [hE] at hentry
          simp only [Option.some.injEq] at hentry
          subst hentry
          have hbest : best ∈ search_similar rows qv 5 "query_vector"
              (some (scope_expr email pid)) := by
            rw [hres]
            exact List.mem_cons_self _ _
          obtain ⟨r, _, hpred, _, _, hem, hpid2⟩ := mem_search_similar hbest
          obtain ⟨he, hp⟩ := eval_scope_expr (hpred _ rfl)
          obtain ⟨hee, hep⟩ := entry_from_best_fields hE
          exact ⟨hee.trans (hem.trans he), hep.trans (hpid2.trans hp)⟩

/-- Claim C6: hybrid retrieval drops every hit at raw distance `≥ 1.5`, keeps
the surviving hits in the index's ascending-distance order, and returns at
most `top_k` of them. -/
theorem c6_hybrid_search_postfilter (rows : List Row) (qv : List ℚ)
    (top_k : ℕ) (expr : Option MExpr) (keywords : List String) :
    (hybrid_search rows qv top_k expr keywords).all
      (fun h => decide (h.score < 1.5)) = true
    ∧ (hybrid_search rows qv top_k expr keywords).Pairwise
        (fun a b => a.score ≤ b.score)
    ∧ (hybrid_search rows qv top_k expr keywords).length ≤ top_k := by
  refine ⟨?_, ?_, ?_⟩
  · rw [List.all_eq_true]
    intro h hh
    simp only [hybrid_search] at hh
    have h1 := List.mem_of_mem_take hh
    have h2 := List.of_mem_filter h1
    simpa using h2
  · simp only [hybrid_search]
    apply List.Pairwise.sublist (List.take_sublist _ _)
    apply List.Pairwise.sublist (List.filter_sublist _)
    simp only [hits_of_search]
    exact List.Pairwise.map _ (fun a b hab => hab)
      (pairwise_collection_search _ _ _ _ _)
  · simp only [hybrid_search]
    exact List.length_take_le _ _

/-- Claim C8: an index failure during retrieval yields an empty candidate
list, `search_cache` then reports `found=false`, and that result is
indistinguishable from a genuine miss (here: the same lookup on an empty
store). -/
theorem c8_failures_collapse_to_miss (e : String) (embed : String → List ℚ)
    (now : String) (rows : List Row) (query_text : String) (qv : List ℚ)
    (email project_id : String) (cm : PyVal) :
    hits_of_search (.error e) = []
    ∧ (search_cache_aux (hits_of_search (.error e)) embed now rows query_text
        qv cm).1 = ⟨false, Option.none, Option.none⟩
    ∧ (search_cache_aux (hits_of_search (.error e)) embed now rows query_text
        qv cm).1 =
      (search_cache embed now [] query_text qv email project_id cm).1 :=
  ⟨rfl, rfl, rfl⟩

/-- Claim C10: `search_by_result` always returns the empty list, because its
delegated call passes the keyword argument `result_vector`, which is not a
parameter of `search_similar`; the `TypeError` is swallowed into `[]`. -/
theorem c10_search_by_result_returns_empty (embed : String → List ℚ)
    (rows : List Row) (result_text : String) (top_k : ℕ) :
    search_by_result embed rows result_text top_k = [] := rfl

/-- Claim C7, counterexample: hit accounting increments the stored
`hit_count` but leaves a stored `last_accessed` value untouched — nothing is
refreshed, contradicting the claim's "refreshes the entry's last_accessed
timestamp". -/
theorem c7_counterexample :
    increment_hit_count
      [⟨"e1", [0], "qt", [0], "rt", "a@b",
        .dict [("hit_count", .int 1),
               ("last_accessed", .str "2024-01-01T00:00:00")], "2024", "p"⟩]
      "e1"
    = (true,
       [⟨"e1", [0], "qt", [0], "rt", "a@b",
         .dict [("hit_count", .int 2),
                ("last_accessed", .str "2024-01-01T00:00:00")], "2024", "p"⟩])
  := rfl

/-- Claim C7, amended: on a hit for an existing entry whose stored metadata
is a dict with an integer (or absent, defaulting to 0) `hit_count`, hit
accounting writes back `hit_count = current + 1` and changes nothing else —
no other metadata key, no other row field, and in particular no
`last_accessed` timestamp (none is stored). -/
theorem c7_amended_hit_accounting (rows : List Row) (entry_id : String)
    (r : Row) (rest : List Row) (kvs : List (String × PyVal)) (n : Int)
    (hq : rows.filter (fun row => row.id == entry_id) = r :: rest)
    (hm : r.metadata = .dict kvs)
    (hc : (dictGet kvs "hit_count").getD (.int 0) = .int n) :
    increment_hit_count rows entry_id =
      (true, rows.map (fun row =>
        if row.id == entry_id then
          { row with
            metadata := PyVal.dict (dictSet kvs "hit_count" (.int (n + 1))) }
        else row))
    ∧ ∀ k, k ≠ "hit_count" →
        dictGet (dictSet kvs "hit_count" (.int (n + 1))) k = dictGet kvs k := by
  constructor
  · simp only [increment_hit_count, hq, hm, hc, pyAddInt]
  · intro k hk
    exact dictGet_dictSet_of_ne kvs "hit_count" k (.int (n + 1)) hk

/-- Claim C7, witness: the amended accounting theorem applied to a concrete
one-row store. -/
theorem c7_amended_witness :
    (increment_hit_count
      [⟨"e2", [0], "qt2", [0], "rt2", "b@c", .dict [("hit_count", .int 4)],
        "2025", "p2"⟩] "e2").1 = true := by
  rw [(c7_amended_hit_accounting
    [⟨"e2", [0], "qt2", [0], "rt2", "b@c", .dict [("hit_count", .int 4)],
      "2025", "p2"⟩] "e2"
    ⟨"e2", [0], "qt2", [0], "rt2", "b@c", .dict [("hit_count", .int 4)],
      "2025", "p2"⟩ [] [("hit_count", .int 4)] 4 rfl rfl rfl).1]

/-- Claim C4: the normalizer is not total — a reference given as an empty
sequence evaluates `ref[0]` before any length check and raises IndexError;
`add_to_cache` catches it, reports `False`, and stores nothing. -/
theorem c4_normalizer_raises_on_empty_sequence :
    process_reference (.list []) =
      .error "IndexError: list index out of range"
    ∧ add_to_cache "t0" [] "q" [0] [0] "a@b" "res" [.list []] [] []
        (.dict []) "p" (.dict []) = (false, []) :=
  ⟨rfl, rfl⟩

/-- Claim C5, counterexample: the claim reads every ordered sequence
positionally with missing trailing elements defaulted, but the code raises
IndexError on the empty sequence instead of producing any normalized dict. -/
theorem c5_counterexample :
    process_reference (.tuple []) =
      .error "IndexError: list index out of range" := rfl

/-- The amended reference-normalization contract, written from the corrected
spec sentence: a mapping passes through unchanged; an *empty* sequence is an
IndexError (caught upstream by `add_to_cache`), not a defaulted record; a
nonempty sequence is read positionally as `[score, text, file_name, page]`
where a falsy score element defaults to `0.0`, a missing text defaults to
`""`, missing `file_name`/`page` default to `None`, and a non-convertible
truthy score/page element is a conversion error; any other value is wrapped
as `{text: str(value), score: 0.0, file_name: None, page: None}`. -/
def reference_normalization_amended (ref : PyVal) : Except String PyVal :=
  match ref with
  | .dict kvs => .ok (.dict kvs)
  | .list xs => of_seq xs
  | .tuple xs => of_seq xs
  | v =>
      .ok (.dict [("text", .str (pyStr v)), ("score", .float 0),
                  ("file_name", .none), ("page", .none)])
where
  /-- Positional reading of a sequence; empty sequences are an error. -/
  of_seq : List PyVal → Except String PyVal
  | [] => .error "IndexError: list index out of range"
  | x0 :: rest => do
      let score ← if pyTruthy x0 then pyFloat x0 else .ok 0
      let text := match rest.get? 0 with
        | some v => pyStr v
        | Option.none => ""
      let file_name := match rest.get? 1 with
        | some v => PyVal.str (pyStr v)
        | Option.none => PyVal.none
      let page ← match rest.get? 2 with
        | some v =>
            if pyTruthy v then (pyInt v).map PyVal.int else .ok PyVal.none
        | Option.none => .ok PyVal.none
      .ok (.dict [("text", .str text), ("score", .float score),
                  ("file_name", file_name), ("page", page)])

/-- Claim C5, amended: reference normalization agrees everywhere with the
amended positional contract (empty sequences raise instead of defaulting,
a missing text defaults to `""`), and the two concrete examples from the
spec hold as stated. -/
theorem c5_amended_reference_normalization :
    (∀ ref, process_reference ref = reference_normalization_amended ref)
    ∧ process_reference
        (.list [.float 0.9, .str "some text", .str "file.pdf", .int 3])
      = .ok (.dict [("text", .str "some text"), ("score", .float 0.9),
                    ("file_name", .str "file.pdf"), ("page", .int 3)])
    ∧ process_reference (.str "bare string")
      = .ok (.dict [("text", .str "bare string"), ("score", .float 0),
                    ("file_name", PyVal.none), ("page", PyVal.none)]) := by
  refine ⟨?_, ?_, rfl⟩
  · intro ref
    cases ref with
    | list xs => cases xs <;> rfl
    | tuple xs => cases xs <;> rfl
    | none => rfl
    | bool b => rfl
    | int n => rfl
    | float q => rfl
    | str s => rfl
    | dict kvs => rfl
  · simp only [process_reference, process_reference.process_reference_seq,
      pyTruthy, pyFloat, pyInt, pyStr, List.get?, Except.map, Except.bind,
      bind]
    norm_num

/-- Claim C9: `total_pages` is the ceiling of `total_count / page_size`
(here as the equivalent integer formula), listing is 1-based, and with 25
stored entries at the cache manager's `page_size = 10`, page 3 holds exactly
5 entries, the reported total is 25, and `total_pages` is 3. -/
theorem c9_pagination :
    (∀ n : ℕ, total_pages n 10 = ((n : ℤ) + 9) / 10)
    ∧ (∀ rows : List Row, rows.length = 25 →
        (get_cache_entries rows 3).1.length = 5
        ∧ (get_cache_entries rows 3).2 = 25)
    ∧ total_pages 25 10 = 3 := by
  have hceil : ∀ n : ℕ, total_pages n 10 = ((n : ℤ) + 9) / 10 := by
    intro n
    unfold total_pages
    rw [Int.ceil_eq_iff]
    have h10 : (0 : ℚ) < ((10 : ℕ) : ℚ) := by norm_num
    have hq1 : (((n : ℤ) + 9) / 10 - 1) * 10 < (n : ℤ) := by omega
    have hq2 : (n : ℤ) ≤ (((n : ℤ) + 9) / 10) * 10 := by omega
    constructor
    · rw [lt_div_iff₀ h10]
      exact_mod_cast hq1
    · rw [div_le_iff₀ h10]
      exact_mod_cast hq2
  refine ⟨hceil, ?_, by rw [hceil 25]; decide⟩
  intro rows h
  have hall : (get_all_entries rows 100 0).length = 25 := by
    simp only [get_all_entries, h, List.drop_zero]
    rw [if_neg (by decide)]
    rw [List.length_take, (List.perm_insertionSort createdDesc rows).length_eq,
      h]
    decide
  have hpage : get_cache_entries rows 3 =
      (((get_all_entries rows 100 0).drop 20).take 5, 25) := by
    simp only [get_cache_entries, hall, cache_manager_page_size]
    norm_num
  rw [hpage]
  refine ⟨?_, rfl⟩
  rw [List.length_take, List.length_drop, hall]
  decide

/-- Claim C1: inserting an entry with vector V and then looking up the very
same vector under the same scope *misses*: the index reports distance 0 for
the identical vector, `search_cache` treats that raw distance as a
"similarity" and discards it as `< 0.7`, so `found=false` and the store
(including the stored `hit_count = 1`) is left untouched — against the
claimed `found=true` with `hit_count = 2`. -/
theorem c1_exact_match_lookup_misses :
    add_to_cache "t0" [] "q" [0] [0] "a@b" "res" [] [] [] (.dict []) "p"
        (.dict [])
      = (true,
         [⟨"q:a@b:p:t0", [0], "q", [0], "res", "a@b",
           .dict [("references", .list []), ("pdf_names", .list []),
                  ("cited_refs", .list []), ("pdf_info", .dict []),
                  ("hit_count", .int 1), ("relevance_score", .float 1),
                  ("cache_management", .dict [])], "t0", "p"⟩])
    ∧ (search_cache (fun _ => [0]) "t1"
        [⟨"q:a@b:p:t0", [0], "q", [0], "res", "a@b",
          .dict [("references", .list []), ("pdf_names", .list []),
                 ("cited_refs", .list []), ("pdf_info", .dict []),
                 ("hit_count", .int 1), ("relevance_score", .float 1),
                 ("cache_management", .dict [])], "t0", "p"⟩]
        "q" [0] "a@b" "p" (.dict [])).1.found = false
    ∧ (search_cache (fun _ => [0]) "t1"
        [⟨"q:a@b:p:t0", [0], "q", [0], "res", "a@b",
          .dict [("references", .list []), ("pdf_names", .list []),
                 ("cited_refs", .list []), ("pdf_info", .dict []),
                 ("hit_count", .int 1), ("relevance_score", .float 1),
                 ("cache_management", .dict [])], "t0", "p"⟩]
        "q" [0] "a@b" "p" (.dict [])).2
      = [⟨"q:a@b:p:t0", [0], "q", [0], "res", "a@b",
          .dict [("references", .list []), ("pdf_names", .list []),
                 ("cited_refs", .list []), ("pdf_info", .dict []),
                 ("hit_count", .int 1), ("relevance_score", .float 1),
                 ("cache_management", .dict [])], "t0", "p"⟩] := by
  refine ⟨rfl, ?_, ?_⟩ <;>
    norm_num [search_cache, search_cache_aux, search_similar,
      collection_search, hits_of_search, eval_expr, scope_expr, field_str,
      field_vector_query, l2_distance, List.insertionSort,
      List.orderedInsert]

/-- Claim C2, counterexample: the "similarity score" surfaced by a lookup is
not a normalized value in `[0,1]` with 1.0 meaning identical — a stored
vector at squared-L2 distance 4 yields score 4 (and even `found=true`),
while the identical vector yields score 0, not 1. -/
theorem c2_counterexample :
    ((search_cache (fun _ => [0]) "t1"
      [⟨"e1", [0], "qt", [0], "rt", "a@b", .dict [], "2024", "p"⟩]
      "q" [2] "a@b" "p" (.dict [])).1.found = true)
    ∧ ((search_cache (fun _ => [0]) "t1"
      [⟨"e1", [0], "qt", [0], "rt", "a@b", .dict [], "2024", "p"⟩]
      "q" [2] "a@b" "p" (.dict [])).1.similarity_score = some 4)
    ∧ ¬ ((4 : ℚ) ≤ 1)
    ∧ ((search_similar
        [⟨"e1", [0], "qt", [0], "rt", "a@b", .dict [], "2024", "p"⟩]
        [0] 5 "query_vector" (some (scope_expr "a@b" "p"))).map
        (fun h => h.score) = [0])
    ∧ (0 : ℚ) ≠ 1 := by
  refine ⟨?_, ?_, by norm_num, ?_, by norm_num⟩ <;>
    norm_num [search_cache, search_cache_aux, search_similar,
      collection_search, hits_of_search, eval_expr, scope_expr, field_str,
      field_vector_query, l2_distance, List.insertionSort,
      List.orderedInsert, increment_hit_count, entry_from_best, dictGet,
      dictSet, pyAddInt, Except.bind, bind, List.find?_cons_of_pos,
      List.find?_cons_of_neg, List.find?_nil]

/-- Claim C2, amended: the best candidate's "similarity score" is the raw
squared-L2 distance of a stored row's vector from the query (nonnegative,
0 means identical, unbounded above rather than normalized to `[0,1]`), and
whenever that score is below the fixed threshold 0.7 the lookup reports
`found=false`, even if candidates exist. -/
theorem c2_amended_score_is_raw_distance :
    (∀ (rows : List Row) (qv : List ℚ) (k : ℕ) (f : String)
       (e : Option MExpr) (h : Hit), h ∈ search_similar rows qv k f e →
       0 ≤ h.score
       ∧ ∃ r, r ∈ rows ∧ h.score = l2_distance qv (field_vector r f))
    ∧ (∀ (embed : String → List ℚ) (now : String) (rows : List Row)
        (query_text : String) (qv : List ℚ) (email project_id : String)
        (cm : PyVal) (best : Hit) (rest : List Hit),
        search_similar rows qv 5 "query_vector"
          (some (scope_expr email project_id)) = best :: rest →
        best.score < 0.7 →
        (search_cache embed now rows query_text qv email project_id cm).1 =
          ⟨false, Option.none, Option.none⟩) := by
  constructor
  · intro rows qv k f e h hh
    obtain ⟨r, hr, _, hscore, _, _, _⟩ := mem_search_similar hh
    exact ⟨hscore ▸ l2_distance_nonneg _ _, r, hr, hscore⟩
  · intro embed now rows qt qv email pid cm best rest hres hlt
    unfold search_cache search_cache_aux
    rw [hres]
    dsimp only
    rw [if_pos hlt]

/-- Claim C2, witness: a candidate at squared distance 1/4 exists, and the
lookup reports a miss because 1/4 < 0.7. -/
theorem c2_amended_witness :
    (search_cache (fun _ => [0]) "t1"
      [⟨"e1", [1/2], "qt", [0], "rt", "a@b", .dict [], "2024", "p"⟩]
      "q" [0] "a@b" "p" (.dict [])).1 = ⟨false, Option.none, Option.none⟩ :=
  c2_amended_score_is_raw_distance.2 (fun _ => [0]) "t1"
    [⟨"e1", [1/2], "qt", [0], "rt", "a@b", .dict [], "2024", "p"⟩] "q" [0]
    "a@b" "p" (.dict []) ⟨"e1", 1/4, "qt", "a@b", "rt", .dict [], "2024", "p"⟩
    []
    (by norm_num [search_similar, collection_search, hits_of_search,
      eval_expr, scope_expr, field_str, field_vector_query, l2_distance,
      List.insertionSort, List.orderedInsert])
    (by norm_num)

/-- Claim C9, witness: the pagination theorem applied to a concrete 25-row
store. -/
theorem c9_witness :
    (get_cache_entries
      (List.replicate 25 ⟨"w", [], "wq", [], "wr", "w@w", .dict [], "tw",
        "pw"⟩) 3).1.length = 5
    ∧ (get_cache_entries
      (List.replicate 25 ⟨"w", [], "wq", [], "wr", "w@w", .dict [], "tw",
        "pw"⟩) 3).2 = 25 :=
  c9_pagination.2.1
    (List.replicate 25 ⟨"w", [], "wq", [], "wr", "w@w", .dict [], "tw", "pw"⟩)
    (by decide)

/-- Claim C3, counterexample: the scope filter is built by interpolating the
caller's strings into an expression string with no quoting, so a scope value
containing `"` rewrites the filter (injection): with the email
`a" || email == "victim`, the interpolated string parses as
`email == "a" || (email == "victim" && project_id == "p")`, and the lookup
returns an entry stored under email `a` and project `x` — both different
from the caller's scope values. -/
theorem c3_counterexample :
    parse_expr (scope_expr_string "a\" || email == \"victim" "p")
      = some (.or (.eqStr "email" "a")
          (.and (.eqStr "email" "victim") (.eqStr "project_id" "p")))
    ∧ (search_cache_str (fun _ => [0]) "t1"
        [⟨"e1", [0], "qt", [0], "rt", "a", .dict [], "2024", "x"⟩]
        "q" [1] "a\" || email == \"victim" "p" (.dict [])).1.entry
      = some ⟨"e1", "qt", [1], [0], "a", "rt", .list [], .list [], .list [],
          .dict [], "2024", "t1", .int 1, 1, "x", .dict []⟩
    ∧ ("a" : String) ≠ "a\" || email == \"victim"
    ∧ ("x" : String) ≠ "p" := by
  refine ⟨by decide, ?_, by decide, by decide⟩
  have hparse : parse_expr (scope_expr_string "a\" || email == \"victim" "p")
      = some (.or (.eqStr "email" "a")
          (.and (.eqStr "email" "victim") (.eqStr "project_id" "p"))) := by
    decide
  norm_num [search_cache_str, search_similar_str, hparse, search_cache_aux,
    collection_search, hits_of_search, eval_expr, field_str,
    field_vector_query, l2_distance, List.insertionSort, List.orderedInsert,
    increment_hit_count, entry_from_best, dictGet, dictSet, pyAddInt,
    Except.bind, bind, List.find?_cons_of_pos, List.find?_cons_of_neg,
    List.find?_nil]

/-- Claim C3, amended: for scope values containing no double-quote
character, the interpolated filter string parses to the exact-match
conjunction on `email` and `project_id`, every candidate surfaced by the
scoped lookup matches both fields exactly, and any entry returned by
`search_cache` carries the caller's scope; a scope value containing `"`
rewrites the filter expression and can surface other scopes' entries. -/
theorem c3_amended_scope_isolation :
    (∀ email project_id : String,
      (∀ c ∈ email.data, c ≠ '"') → (∀ c ∈ project_id.data, c ≠ '"') →
      parse_expr (scope_expr_string email project_id) =
        some (scope_expr email project_id))
    ∧ (∀ (rows : List Row) (qv : List ℚ) (email project_id : String),
        (∀ c ∈ email.data, c ≠ '"') → (∀ c ∈ project_id.data, c ≠ '"') →
        (search_similar_str rows qv 5 "query_vector"
          (some (scope_expr_string email project_id))).all
          (fun h => h.email == email && h.project_id == project_id) = true)
    ∧ (∀ (embed : String → List ℚ) (now : String) (rows : List Row)
        (query_text : String) (qv : List ℚ) (email project_id : String)
        (cm : PyVal) (e : CacheEntry),
        (∀ c ∈ email.data, c ≠ '"') → (∀ c ∈ project_id.data, c ≠ '"') →
        (search_cache_str embed now rows query_text qv email project_id
          cm).1.entry = some e →
        e.email = email ∧ e.project_id = project_id) := by
  refine ⟨fun email pid he hp => parse_scope_expr_string email pid he hp,
    ?_, ?_⟩
  · intro rows qv email pid he hp
    rw [search_similar_str_quotefree rows qv 5 "query_vector" email pid he hp]
    exact structured_scope_isolation.1 rows qv email pid
  · intro embed now rows qt qv email pid cm e he hp hentry
    rw [search_cache_str_quotefree embed now rows qt qv email pid cm he hp]
      at hentry
    exact structured_scope_isolation.2 embed now rows qt qv email pid cm e
      hentry

/-- Claim C3, witness: the amended scope theorem applied to a concrete
quote-free hit (distance 1 ≥ 0.7, so the lookup actually returns an
entry). -/
theorem c3_amended_witness :
    (⟨"e1", "qt", [1], [0], "a@b", "rt", .list [], .list [], .list [],
      .dict [], "2024", "t1", .int 2, 1, "p", .dict []⟩ : CacheEntry).email
      = "a@b"
    ∧ (⟨"e1", "qt", [1], [0], "a@b", "rt", .list [], .list [], .list [],
      .dict [], "2024", "t1", .int 2, 1, "p",
      .dict []⟩ : CacheEntry).project_id = "p" :=
  c3_amended_scope_isolation.2.2 (fun _ => [0]) "t1"
    [⟨"e1", [0], "qt", [0], "rt", "a@b", .dict [("hit_count", .int 1)],
      "2024", "p"⟩] "q" [1] "a@b" "p" (.dict [])
    ⟨"e1", "qt", [1], [0], "a@b", "rt", .list [], .list [], .list [],
      .dict [], "2024", "t1", .int 2, 1, "p", .dict []⟩
    (by decide) (by decide)
    (by
      rw [search_cache_str_quotefree (fun _ => [0]) "t1"
        [⟨"e1", [0], "qt", [0], "rt", "a@b", .dict [("hit_count", .int 1)],
          "2024", "p"⟩] "q" [1] "a@b" "p" (.dict []) (by decide) (by decide)]
      norm_num [search_cache, search_cache_aux, search_similar,
        collection_search, hits_of_search, eval_expr, scope_expr, field_str,
        field_vector_query, l2_distance, List.insertionSort,
        List.orderedInsert, increment_hit_count, entry_from_best, dictGet,
        dictSet, pyAddInt, Except.bind, bind, List.find?_cons_of_pos,
        List.find?_cons_of_neg, List.find?_nil]
      exact ⟨rfl, rfl, rfl, rfl⟩)
